import Mathlib

/-!
Verification of the Inference Orchestration & Simulation Control core of the
INTincRoadmap repository.

The development shallowly embeds, in Lean 4:

* the simulation state machine of `src/context/CityContext.tsx` (districts,
  transit hub, simulation flag and its mutation operations), with the
  telemetry-drift tick taken from the guarded variant in
  `src/unnamed/part_001` (lines 40-69), which the spec designates as the
  canonical collapse of the duplicated provider variants;
* the `InferenceOrchestrator` of `src/services/aiService.ts` (first variant):
  tier-keyed cache with TTL, FIFO eviction on capacity, cost estimation and
  the two user-facing error shapes;
* the localStorage-backed orchestrator variant of `src/unnamed/part_000`
  (skip-cache-on-boost policy, tool-call responses not cached);
* the tool-call dispatch loop of `handleSend` in
  `src/components/QuantumScene.tsx` (lines 282-298).

Wall-clock reads (`Date.now()`) are modelled by explicit `Nat` instants passed
to each call; `Math.random()` draws are modelled by explicit rational
parameters.  Remote generation is modelled by a `RemoteOutcome` oracle value;
the number of remote invocations performed by a call is recorded in the
returned outcome so that "issues no remote call" is observable.
-/

/-- The seven federated district identifiers (`HubId` in `src/types.ts`). -/
inductive HubId where
  | DEV | DATA | AI | OPS | GROWTH | COMMERCE | COLLAB
deriving DecidableEq, Repr

/-- GPU telemetry of the designated compute district (`gpuAcceleration` in
`src/types.ts`). -/
structure GpuAcceleration where
  isBoosted : Bool
  tflops : ℚ
  vramUsed : ℚ
deriving DecidableEq, Repr

/-- Live operational status of a district (`DistrictStatus` in `src/types.ts`).
`gpuAcceleration` is present only for the AI district. -/
structure DistrictStatus where
  id : HubId
  isActive : Bool
  load : ℚ
  health : ℚ
  gpuAcceleration : Option GpuAcceleration
deriving DecidableEq, Repr

/-- Global simulation state (`CityState` in `src/types.ts`).  `districts` is a
total map over the enumerated ids, as the source record always is.  The
`transitHub` field is kept as a `String` because the dispatcher writes the
raw tool-call `targetId` string into it (`setTransitHub(targetId as any)`). -/
@[ext] structure CityState where
  districts : HubId → DistrictStatus
  transitHub : String
  simulationActive : Bool

/-- Initial state built by `CityProvider` in `src/context/CityContext.tsx`:
every district active with `health = 100` and `load = 15 + Math.random()*20`,
AI district carrying `{isBoosted: false, tflops: 120, vramUsed: 42}`.
`r d` stands for the `Math.random()` draw used for district `d`. -/
def initialState (r : HubId → ℚ) : CityState where
  districts := fun d =>
    { id := d
      isActive := true
      load := 15 + r d * 20
      health := 100
      gpuAcceleration :=
        if d = HubId.AI then some { isBoosted := false, tflops := 120, vramUsed := 42 }
        else none }
  transitHub := "n8n"
  simulationActive := false

/-- `toggleDistrict` from `src/context/CityContext.tsx` (lines 57-74): flips
`isActive`; activation sets `health = 100, load = 20`, deactivation zeroes
both; always sets `simulationActive`. -/
def toggleDistrict (id : HubId) (s : CityState) : CityState :=
  let newStatus := !(s.districts id).isActive
  { s with
    districts := fun d =>
      if d = id then
        { s.districts id with
          isActive := newStatus
          health := if newStatus then 100 else 0
          load := if newStatus then 20 else 0 }
      else s.districts d
    simulationActive := true }

/-- `toggleGPUBooost` from `src/context/CityContext.tsx` (lines 76-90): flips
`gpuAcceleration.isBoosted` on the AI district when the field is present,
leaves it `undefined` otherwise; `simulationActive` is not touched. -/
def toggleGPUBooost (s : CityState) : CityState :=
  { s with
    districts := fun d =>
      if d = HubId.AI then
        { s.districts HubId.AI with
          gpuAcceleration := (s.districts HubId.AI).gpuAcceleration.map
            (fun g => { g with isBoosted := !g.isBoosted }) }
      else s.districts d }

/-- `setTransitHub` from `src/context/CityContext.tsx`: stores the hub and
marks the simulation as overridden. -/
def setTransitHub (hub : String) (s : CityState) : CityState :=
  { s with transitHub := hub, simulationActive := true }

/-- `resetSimulation` from `src/context/CityContext.tsx` (lines 96-113):
rebuilds the initial baseline (all districts active, `load = 20`,
`health = 100`, AI gpu block reset) regardless of the previous state. -/
def resetSimulation (_s : CityState) : CityState where
  districts := fun d =>
    { id := d
      isActive := true
      load := 20
      health := 100
      gpuAcceleration :=
        if d = HubId.AI then some { isBoosted := false, tflops := 120, vramUsed := 42 }
        else none }
  transitHub := "n8n"
  simulationActive := false

/-- Telemetry-drift tick, from the guarded provider variant
(`src/unnamed/part_001`, lines 40-69): if the AI district is inactive the
state is returned unchanged; otherwise `tflops` and `vramUsed` of its
`gpuAcceleration` block are redrawn around the boosted-high or unboosted-low
baseline.  `r1` and `r2` are the two `Math.random()` draws. -/
def tick (r1 r2 : ℚ) (s : CityState) : CityState :=
  let aiDist := s.districts HubId.AI
  if aiDist.isActive = false then s
  else
    let isBoosted := (aiDist.gpuAcceleration.map GpuAcceleration.isBoosted).getD false
    { s with
      districts := fun d =>
        if d = HubId.AI then
          { aiDist with
            gpuAcceleration := aiDist.gpuAcceleration.map fun g =>
              { g with
                tflops := if isBoosted then 820 + r1 * 80 else 120 + r1 * 10
                vramUsed := if isBoosted then 76 + r2 * 4 else 38 + r2 * 5 } }
        else s.districts d }

/-- Telemetry-drift tick of the `src/context/CityContext.tsx` provider
(lines 33-55).  Unlike the `part_001` variant it carries no inactive guard:
the AI district's drift fields are redrawn unconditionally (with its own
baselines: boosted `850 + r*50` / `78 + r*2`, unboosted `120 + r*10` /
`42 + r*3`). -/
def tickFlux (r1 r2 : ℚ) (s : CityState) : CityState :=
  { s with
    districts := fun d =>
      if d = HubId.AI then
        { s.districts HubId.AI with
          gpuAcceleration := (s.districts HubId.AI).gpuAcceleration.map fun g =>
            { g with
              tflops := if g.isBoosted then 850 + r1 * 50 else 120 + r1 * 10
              vramUsed := if g.isBoosted then 78 + r2 * 2 else 42 + r2 * 3 } }
      else s.districts d }

/-- States reachable from the provider's initial state by the exposed
operations (any interleaving, any random draws; both tick variants are
admitted). -/
inductive Reach : CityState → Prop where
  | init (r : HubId → ℚ) : Reach (initialState r)
  | toggle (id : HubId) {s : CityState} (h : Reach s) : Reach (toggleDistrict id s)
  | setHub (hub : String) {s : CityState} (h : Reach s) : Reach (setTransitHub hub s)
  | boost {s : CityState} (h : Reach s) : Reach (toggleGPUBooost s)
  | reset {s : CityState} (h : Reach s) : Reach (resetSimulation s)
  | drift (r1 r2 : ℚ) {s : CityState} (h : Reach s) : Reach (tick r1 r2 s)
  | flux (r1 r2 : ℚ) {s : CityState} (h : Reach s) : Reach (tickFlux r1 r2 s)

/-- Projection of the boosted flag through the optional gpu block. -/
def gpuBoostFlag (d : DistrictStatus) : Option Bool :=
  d.gpuAcceleration.map GpuAcceleration.isBoosted

/-- Concrete state whose districts carry no gpu telemetry block. -/
def noGpuState : CityState where
  districts := fun d =>
    { id := d, isActive := true, load := 5, health := 100, gpuAcceleration := none }
  transitHub := "n8n"
  simulationActive := false

/-- A structured tool-call instruction returned by the model
(`functionCalls` entries).  `args` is flattened into the three optional
fields that the dispatcher reads (`sectionId`, `eventType`, `targetId`). -/
structure FunctionCall where
  name : String
  sectionId : Option String
  eventType : Option String
  targetId : Option String
deriving DecidableEq, Repr

/-- Outcome of the opaque remote generation call
(`ai.models.generateContent`): either a response carrying an optional text
and optional tool calls, or a thrown error carrying its message. -/
inductive RemoteOutcome where
  | ok (text : Option String) (functionCalls : Option (List FunctionCall))
  | err (message : String)
deriving DecidableEq, Repr

/-- JavaScript `a || b` on an optional string: the fallback is used when the
value is `undefined` or the empty string (both falsy). -/
def jsStringOr (v : Option String) (fallback : String) : String :=
  match v with
  | some s => if s.isEmpty then fallback else s
  | none => fallback

/-- JavaScript `s.toLowerCase()`, character by character (ASCII case fold). -/
def jsToLower (s : String) : String :=
  String.mk (s.data.map Char.toLower)

/-- JavaScript `s.trim()`: strip leading and trailing whitespace. -/
def jsTrim (s : String) : String :=
  String.mk (((s.data.dropWhile Char.isWhitespace).reverse.dropWhile Char.isWhitespace).reverse)

/-- Decides whether `p` occurs at the start of `l`. -/
def seqStartsWith : List Char → List Char → Bool
  | _, [] => true
  | [], _ :: _ => false
  | c :: cs, p :: ps => c == p && seqStartsWith cs ps

/-- Decides whether `p` occurs anywhere inside `l`. -/
def seqContains : List Char → List Char → Bool
  | [], p => p.isEmpty
  | s@(_ :: rest), p => seqStartsWith s p || seqContains rest p

/-- JavaScript `s.includes(pat)`. -/
def strIncludes (s pat : String) : Bool :=
  seqContains s.data pat.data

/-- Insertion-ordered string-keyed map, the shallow embedding of a JavaScript
`Map` (and of a plain object used as a dictionary): lookup by key, update in
place, append new keys at the end. -/
abbrev JsMap (α : Type) : Type := List (String × α)

namespace JsMap

/-- `map.get(k)` / `obj[k]`. -/
def get {α : Type} : JsMap α → String → Option α
  | [], _ => none
  | (k0, v0) :: rest, k => if k0 = k then some v0 else get rest k

/-- `map.set(k, v)` / `obj[k] = v`: overwrite in place, else append. -/
def set {α : Type} : JsMap α → String → α → JsMap α
  | [], k, v => [(k, v)]
  | (k0, v0) :: rest, k, v =>
      if k0 = k then (k0, v) :: rest else (k0, v0) :: set rest k v

/-- `map.delete(k)` / `delete obj[k]` (keys are unique by construction). -/
def del {α : Type} : JsMap α → String → JsMap α
  | [], _ => []
  | (k0, v0) :: rest, k => if k0 = k then rest else (k0, v0) :: del rest k

/-- Whether the key is present. -/
def hasKey {α : Type} (m : JsMap α) (k : String) : Bool :=
  m.any (fun p => p.1 = k)

/-- Number of entries (`map.size` / `Object.keys(obj).length`). -/
def size {α : Type} (m : JsMap α) : Nat := m.length

/-- The first-inserted key (`map.keys().next().value` / `Object.keys(obj)[0]`). -/
def oldestKey {α : Type} (m : JsMap α) : Option String :=
  m.head?.map Prod.fst

end JsMap

/-- Latency/cost telemetry envelope (`InferenceMetrics` in `src/types.ts`). -/
structure InferenceMetrics where
  ttft : ℚ
  totalLatency : ℚ
  cached : Bool
  accelerated : Bool
deriving DecidableEq, Repr

/-- In-memory cache entry of `src/services/aiService.ts` (`CacheEntry`). -/
structure CacheEntry where
  text : String
  metrics : InferenceMetrics
  functionCalls : Option (List FunctionCall)
  timestamp : Nat
  costEstimate : ℚ
deriving DecidableEq, Repr

/-- The two user-facing error shapes thrown by `InferenceOrchestrator.chat`:
the rate-limit failover message ("Local GPU cluster saturated ...") and the
generic inference failure ("Unable to establish neural link ..."). -/
inductive ChatError where
  | clusterSaturated
  | inferenceUnavailable
deriving DecidableEq, Repr

/-- Normalized result envelope returned by `InferenceOrchestrator.chat`. -/
structure ChatResult where
  text : String
  metrics : InferenceMetrics
  functionCalls : Option (List FunctionCall)
  costEstimate : ℚ
deriving DecidableEq, Repr

/-- Observable outcome of one `chat` call: the returned value or thrown
error, the cache contents afterwards, and how many remote generation calls
were issued (instrumentation, so that cache-hit behaviour is observable). -/
structure ChatOutcome where
  result : Except ChatError ChatResult
  cache : JsMap CacheEntry
  remoteCalls : Nat

namespace InferenceOrchestrator

/-- `CACHE_TTL = 1000 * 60 * 30` (30 minutes), in milliseconds. -/
def CACHE_TTL : Nat := 1000 * 60 * 30

/-- `MAX_CACHE_SIZE = 100`. -/
def MAX_CACHE_SIZE : Nat := 100

/-- Cost coefficients keyed by model name (`COST_COEFFICIENT` in
`src/services/aiService.ts`).  Only the two model names below are ever looked
up by `chat`. -/
def COST_COEFFICIENT (model : String) : ℚ :=
  if model = "gemini-3-pro-preview" then 0.0015 else 0.0001

/-- `privateHash(message, model)`: the cache key
`` `${model}:${message.toLowerCase().trim()}` ``. -/
def privateHash (message model : String) : String :=
  model ++ ":" ++ jsTrim (jsToLower message)

/-- Model-tier selection: boosted requests use the pro tier. -/
def modelNameOf (isBoosted : Bool) : String :=
  if isBoosted then "gemini-3-pro-preview" else "gemini-3-flash-preview"

/-- The cache key used by `chat(message, isBoosted)`. -/
def chatKey (message : String) (isBoosted : Bool) : String :=
  privateHash message (modelNameOf isBoosted)

/-- The capacity-triggered eviction of `chat` ("LRU-lite"): when the cache
has reached `maxSize` entries, the first-inserted key is deleted. -/
def evictIfFull (maxSize : Nat) (cache : JsMap CacheEntry) : JsMap CacheEntry :=
  if maxSize ≤ cache.length then
    match JsMap.oldestKey cache with
    | some oldest => JsMap.del cache oldest
    | none => cache
  else cache

/-- Capacity-bounded insertion: evict-if-full, then `set`. -/
def cachePut (maxSize : Nat) (cache : JsMap CacheEntry) (k : String) (v : CacheEntry) :
    JsMap CacheEntry :=
  JsMap.set (evictIfFull maxSize cache) k v

/-- Fallback text used when the response text is falsy. -/
def timeoutText : String := "Architectural packet timeout. Re-routing..."

/-- The cache-miss path of `chat` (the `try`/`catch` body of
`src/services/aiService.ts`, lines 145-211): issue the remote call; on
success compute latency, fallback text, cost estimate and metrics, store the
entry (with capacity eviction) and return; on failure re-signal a 429 message
as `clusterSaturated` and anything else as `inferenceUnavailable`. -/
def chatMiss (remote : RemoteOutcome) (cache : JsMap CacheEntry)
    (startTime finishTime : Nat) (isBoosted : Bool) (modelName cacheKey : String) :
    ChatOutcome :=
  match remote with
  | RemoteOutcome.err msg =>
      { result := Except.error
          (if strIncludes msg "429" then ChatError.clusterSaturated
           else ChatError.inferenceUnavailable)
        cache := cache
        remoteCalls := 1 }
  | RemoteOutcome.ok text fcs =>
      let totalLatency : ℚ := ((finishTime - startTime : Nat) : ℚ)
      let responseText := jsStringOr text timeoutText
      let costEstimate := ((responseText.length : ℚ) / 4) * COST_COEFFICIENT modelName
      let result : ChatResult :=
        { text := responseText
          functionCalls := fcs
          costEstimate := costEstimate
          metrics :=
            { ttft := if isBoosted then totalLatency * 0.4 else totalLatency * 0.2
              totalLatency := totalLatency
              cached := false
              accelerated := isBoosted } }
      { result := Except.ok result
        cache := cachePut MAX_CACHE_SIZE cache cacheKey
          { text := result.text
            metrics := result.metrics
            functionCalls := result.functionCalls
            timestamp := finishTime
            costEstimate := costEstimate }
        remoteCalls := 1 }

/-- `InferenceOrchestrator.chat(message, isBoosted)` from
`src/services/aiService.ts` (first variant, lines 116-212).  `startTime` is
the `Date.now()` sampled on entry (used for the TTL freshness check and as
the latency origin) and `finishTime` the `Date.now()` sampled after the
remote response (used as the stored entry's timestamp); `remote` is the
outcome the remote model would produce if invoked. -/
def chat (remote : RemoteOutcome) (cache : JsMap CacheEntry)
    (startTime finishTime : Nat) (message : String) (isBoosted : Bool) : ChatOutcome :=
  let modelName := modelNameOf isBoosted
  let cacheKey := privateHash message modelName
  match JsMap.get cache cacheKey with
  | some cachedEntry =>
      if startTime - cachedEntry.timestamp < CACHE_TTL then
        { result := Except.ok
            { text := cachedEntry.text
              metrics :=
                { cachedEntry.metrics with
                  cached := true
                  totalLatency := ((finishTime - startTime : Nat) : ℚ) }
              functionCalls := cachedEntry.functionCalls
              costEstimate := cachedEntry.costEstimate }
          cache := cache
          remoteCalls := 0 }
      else chatMiss remote cache startTime finishTime isBoosted modelName cacheKey
  | none => chatMiss remote cache startTime finishTime isBoosted modelName cacheKey

/-- Mirror of the freshness test guarding the cache-hit branch of `chat`:
the key is present and its age is below the TTL. -/
def cacheFresh (cache : JsMap CacheEntry) (key : String) (now : Nat) : Bool :=
  match JsMap.get cache key with
  | some e => decide (now - e.timestamp < CACHE_TTL)
  | none => false

/-- The pure cost estimator of the spec:
`estimate = (len(responseText) / 4) * perTierCoefficient[modelTier]`. -/
def estimate (len : Nat) (model : String) : ℚ :=
  ((len : ℚ) / 4) * COST_COEFFICIENT model

/-- A placeholder cache entry used in concrete eviction scenarios. -/
def mkEntry (n : Nat) : CacheEntry :=
  { text := toString n
    metrics := { ttft := 0, totalLatency := 0, cached := false, accelerated := false }
    functionCalls := none
    timestamp := 0
    costEstimate := 0 }

end InferenceOrchestrator

/- The localStorage-backed orchestrator variant of `src/unnamed/part_000`
("skip cache when boosted" policy).  The persisted cache object is modelled
by the same insertion-ordered map as the in-memory variant. -/
namespace StorageService

/-- Metrics stored with a persisted entry (`AICacheEntry.metrics`). -/
structure AICacheMetrics where
  latency : ℚ
  tokens : Nat
deriving DecidableEq, Repr

/-- Persisted cache entry (`AICacheEntry` in `src/types.ts`). -/
structure AICacheEntry where
  prompt : String
  response : String
  timestamp : Nat
  metrics : AICacheMetrics
deriving DecidableEq, Repr

/-- `CACHE_EXPIRY = 1000 * 60 * 60` (1 hour). -/
def CACHE_EXPIRY : Nat := 1000 * 60 * 60

/-- `setCache(prompt, entry)` from `src/unnamed/part_000` (lines 33-44):
store under the prompt, then, if the store now holds more than 50 entries,
delete the first-inserted key. -/
def setCache (cache : JsMap AICacheEntry) (prompt : String) (entry : AICacheEntry) :
    JsMap AICacheEntry :=
  let c1 := JsMap.set cache prompt entry
  if 50 < c1.length then
    match JsMap.oldestKey c1 with
    | some k0 => JsMap.del c1 k0
    | none => c1
  else c1

/-- Result envelope returned by this variant's `chat`. -/
structure ChatReply where
  text : String
  metrics : InferenceMetrics
  functionCalls : Option (List FunctionCall)
deriving DecidableEq, Repr

/-- Observable outcome of one `chat` call of this variant. -/
structure ChatRun where
  result : Except String ChatReply
  cache : JsMap AICacheEntry
  remoteCalls : Nat

/-- Fallback text used when the response text is falsy. -/
def retryText : String := "Synchronous packet timeout. Retrying..."

/-- Mirror of the hit condition guarding the cache-layer check:
`!isBoosted && cache[message] && (now - timestamp < CACHE_EXPIRY)`. -/
def cacheHit (cache : JsMap AICacheEntry) (now : Nat) (message : String)
    (isBoosted : Bool) : Bool :=
  !isBoosted &&
    match JsMap.get cache message with
    | some e => decide (now - e.timestamp < CACHE_EXPIRY)
    | none => false

/-- The miss path of this variant's `chat` (steps 2-4 of
`src/unnamed/part_000`, lines 141-196): invoke the remote model; on success
persist the response via `setCache` only when the call was not boosted and
the response carried no function calls; on failure throw the single error
message of this variant. -/
def chatMiss (remote : RemoteOutcome) (cache : JsMap AICacheEntry)
    (startTime finishTime : Nat) (message : String) (isBoosted : Bool) : ChatRun :=
  match remote with
  | RemoteOutcome.err _ =>
      { result := Except.error
          "Architectural reasoning interrupted. Check district connectivity."
        cache := cache
        remoteCalls := 1 }
  | RemoteOutcome.ok txt fcs =>
      let totalLatency : ℚ := ((finishTime - startTime : Nat) : ℚ)
      let responseText := jsStringOr txt retryText
      let cache2 :=
        if !isBoosted && fcs.isNone then
          setCache cache message
            { prompt := message
              response := responseText
              timestamp := finishTime
              metrics := { latency := totalLatency, tokens := 0 } }
        else cache
      { result := Except.ok
          { text := responseText
            functionCalls := fcs
            metrics :=
              { ttft := totalLatency * 0.35
                totalLatency := totalLatency
                cached := false
                accelerated := isBoosted } }
        cache := cache2
        remoteCalls := 1 }

/-- `InferenceOrchestrator.chat` of `src/unnamed/part_000` (lines 118-197):
non-boosted calls with a fresh persisted entry are served from the cache
with zeroed latency metrics; everything else goes to the miss path. -/
def chat (remote : RemoteOutcome) (cache : JsMap AICacheEntry)
    (startTime finishTime : Nat) (message : String) (isBoosted : Bool) : ChatRun :=
  match isBoosted, JsMap.get cache message with
  | false, some e =>
      if startTime - e.timestamp < CACHE_EXPIRY then
        { result := Except.ok
            { text := e.response
              metrics :=
                { ttft := 0, totalLatency := 0, cached := true, accelerated := false }
              functionCalls := none }
          cache := cache
          remoteCalls := 0 }
      else chatMiss remote cache startTime finishTime message false
  | b, _ => chatMiss remote cache startTime finishTime message b

end StorageService

/-- JavaScript truthiness of an optional string (`undefined` and `""` are
falsy). -/
def jsTruthy : Option String → Bool
  | none => false
  | some t => !t.isEmpty

/-- The district-record lookup `prev.districts[targetId]`: the state only
carries the seven enumerated keys, any other string yields `undefined` (and
dereferencing it throws). -/
def parseHubId (s : String) : Option HubId :=
  if s = "DEV" then some HubId.DEV
  else if s = "DATA" then some HubId.DATA
  else if s = "AI" then some HubId.AI
  else if s = "OPS" then some HubId.OPS
  else if s = "GROWTH" then some HubId.GROWTH
  else if s = "COMMERCE" then some HubId.COMMERCE
  else if s = "COLLAB" then some HubId.COLLAB
  else none

/-- The string key of a district id. -/
def hubIdKey : HubId → String
  | HubId.DEV => "DEV"
  | HubId.DATA => "DATA"
  | HubId.AI => "AI"
  | HubId.OPS => "OPS"
  | HubId.GROWTH => "GROWTH"
  | HubId.COMMERCE => "COMMERCE"
  | HubId.COLLAB => "COLLAB"

/-- State observed by the dispatch loop of `handleSend`: the simulation
state plus instrumentation recording, in order, the navigation effects
performed (the `scrollToSection` arguments) and how many state-store
operations were invoked. -/
structure DispatchState where
  city : CityState
  navs : List (Option String)
  storeOps : Nat

/-- Total number of effects (navigation plus store operations) performed so
far. -/
def effectCount (ds : DispatchState) : Nat := ds.navs.length + ds.storeOps

/-- One iteration of the dispatch loop of `handleSend`
(`src/components/QuantumScene.tsx`, lines 282-298): `navigateToSection`
scrolls, `triggerSimulationEvent` maps `FAIL_DISTRICT`/`SWITCH_TRANSIT`
(each guarded by a truthy `targetId`) and `RESET` to the store operations,
and any other name falls through.  A `FAIL_DISTRICT` whose target is not a
district key throws (the `undefined.isActive` dereference), modelled as
`none`, which aborts the remaining calls exactly as the thrown exception
does. -/
def applyCall (ds : DispatchState) (fc : FunctionCall) : Option DispatchState :=
  if fc.name = "navigateToSection" then
    some { ds with navs := ds.navs ++ [fc.sectionId] }
  else if fc.name = "triggerSimulationEvent" then
    if fc.eventType == some "FAIL_DISTRICT" && jsTruthy fc.targetId then
      match parseHubId (fc.targetId.getD "") with
      | some id =>
          some { ds with city := toggleDistrict id ds.city, storeOps := ds.storeOps + 1 }
      | none => none
    else if fc.eventType == some "SWITCH_TRANSIT" && jsTruthy fc.targetId then
      some { ds with city := setTransitHub (fc.targetId.getD "") ds.city,
                     storeOps := ds.storeOps + 1 }
    else if fc.eventType = some "RESET" then
      some { ds with city := resetSimulation ds.city, storeOps := ds.storeOps + 1 }
    else some ds
  else some ds

/-- The dispatch loop: apply the calls in the order received; a thrown
error aborts the remaining calls. -/
def dispatchCalls : List FunctionCall → DispatchState → Option DispatchState
  | [], ds => some ds
  | fc :: rest, ds =>
      match applyCall ds fc with
      | some ds2 => dispatchCalls rest ds2
      | none => none

/-- Number of effects a single call performs, following the branch
structure of `applyCall`. -/
def callEffects (fc : FunctionCall) : Nat :=
  if fc.name = "navigateToSection" then 1
  else if fc.name = "triggerSimulationEvent" then
    if fc.eventType == some "FAIL_DISTRICT" && jsTruthy fc.targetId then 1
    else if fc.eventType == some "SWITCH_TRANSIT" && jsTruthy fc.targetId then 1
    else if fc.eventType = some "RESET" then 1
    else 0
  else 0

/-- The `{eventType: RESET}` tool call. -/
def resetCall : FunctionCall :=
  { name := "triggerSimulationEvent", sectionId := none, eventType := some "RESET",
    targetId := none }

/-- The `{eventType: FAIL_DISTRICT, targetId}` tool call. -/
def failDistrictCall (targetId : String) : FunctionCall :=
  { name := "triggerSimulationEvent", sectionId := none,
    eventType := some "FAIL_DISTRICT", targetId := some targetId }

/-- C4: in every state reachable from the initial state by toggleDistrict,
setTransitHub, toggleGPUBooost, resetSimulation and tick operations, an
inactive district has `load = 0` and `health = 0`. -/
theorem reach_inactive_zero {s : CityState} (h : Reach s) :
    ∀ d : HubId, (s.districts d).isActive = false →
      (s.districts d).load = 0 ∧ (s.districts d).health = 0 := by
  induction h with
  | init r =>
      intro d hd
      simp [initialState] at hd
  | @toggle id t _ ih =>
      intro d hd
      by_cases hdi : d = id
      · subst hdi
        simp only [toggleDistrict, if_pos rfl] at hd ⊢
        simp_all
      · simp only [toggleDistrict, if_neg hdi] at hd ⊢
        exact ih d hd
  | @setHub hub t _ ih =>
      intro d hd
      exact ih d hd
  | @boost t _ ih =>
      intro d hd
      by_cases hdi : d = HubId.AI
      · subst hdi
        simp only [toggleGPUBooost, if_pos rfl] at hd ⊢
        exact ih HubId.AI hd
      · simp only [toggleGPUBooost, if_neg hdi] at hd ⊢
        exact ih d hd
  | @reset t _ ih =>
      intro d hd
      simp [resetSimulation] at hd
  | @drift r1 r2 t _ ih =>
      intro d hd
      by_cases hact : (t.districts HubId.AI).isActive = false
      · simp only [tick, if_pos hact] at hd ⊢
        exact ih d hd
      · by_cases hdi : d = HubId.AI
        · subst hdi
          simp only [tick, if_neg hact, if_pos rfl] at hd ⊢
          exact absurd hd hact
        · simp only [tick, if_neg hact, if_neg hdi] at hd ⊢
          exact ih d hd
  | @flux r1 r2 t _ ih =>
      intro d hd
      by_cases hdi : d = HubId.AI
      · subst hdi
        simp only [tickFlux, if_pos rfl] at hd ⊢
        exact ih HubId.AI hd
      · simp only [tickFlux, if_neg hdi] at hd ⊢
        exact ih d hd

/-- C4 witness: deactivating DEV from a concrete initial state yields a
reachable state in which DEV is inactive with zero load and health. -/
theorem reach_inactive_zero_witness :
    ((toggleDistrict HubId.DEV (initialState fun _ => 0)).districts HubId.DEV).load = 0 ∧
    ((toggleDistrict HubId.DEV (initialState fun _ => 0)).districts HubId.DEV).health = 0 :=
  reach_inactive_zero (Reach.toggle HubId.DEV (Reach.init fun _ => 0)) HubId.DEV (by decide)

/-- C5: a tick changes at most the AI district's gpu drift fields.  Every
other district is untouched, the transit hub, the simulation flag and the AI
district's `id`, `isActive`, `load`, `health` and boosted flag are preserved,
and a tick taken while the AI district is inactive is the identity. -/
theorem tick_frame (r1 r2 : ℚ) (s : CityState) :
    (∀ d : HubId, d ≠ HubId.AI → (tick r1 r2 s).districts d = s.districts d) ∧
    (tick r1 r2 s).transitHub = s.transitHub ∧
    (tick r1 r2 s).simulationActive = s.simulationActive ∧
    ((tick r1 r2 s).districts HubId.AI).id = (s.districts HubId.AI).id ∧
    ((tick r1 r2 s).districts HubId.AI).isActive = (s.districts HubId.AI).isActive ∧
    ((tick r1 r2 s).districts HubId.AI).load = (s.districts HubId.AI).load ∧
    ((tick r1 r2 s).districts HubId.AI).health = (s.districts HubId.AI).health ∧
    gpuBoostFlag ((tick r1 r2 s).districts HubId.AI) = gpuBoostFlag (s.districts HubId.AI) ∧
    ((s.districts HubId.AI).isActive = false → tick r1 r2 s = s) := by
  by_cases hact : (s.districts HubId.AI).isActive = false
  · simp [tick, hact]
  · refine ⟨?_, ?_, ?_, ?_, ?_, ?_, ?_, ?_, ?_⟩
    · intro d hd
      simp [tick, hact, hd]
    · simp [tick, hact]
    · simp [tick, hact]
    · simp [tick, hact]
    · simp [tick, hact]
    · simp [tick, hact]
    · simp [tick, hact]
    · simp only [tick, if_neg hact, if_pos rfl, gpuBoostFlag]
      cases (s.districts HubId.AI).gpuAcceleration <;> rfl
    · intro h
      exact absurd h hact

/-- C5 witness: concrete tick on a fresh initial state leaves the DEV
district untouched, and a tick on a state whose AI district has been failed
is the identity. -/
theorem tick_frame_witness :
    (tick (1/2) (1/3) (initialState fun _ => 0)).districts HubId.DEV =
      (initialState fun _ => 0).districts HubId.DEV ∧
    tick (1/2) (1/3) (toggleDistrict HubId.AI (initialState fun _ => 0)) =
      toggleDistrict HubId.AI (initialState fun _ => 0) :=
  ⟨(tick_frame (1/2) (1/3) (initialState fun _ => 0)).1 HubId.DEV (by decide),
   ((tick_frame (1/2) (1/3) (toggleDistrict HubId.AI (initialState fun _ => 0))).2.2.2.2.2.2.2.2)
     (by decide)⟩

/-- C10: `toggleGPUBooost` mutates at most the boosted flag of the AI
district's gpu block: it never sets `simulationActive` (whereas
`toggleDistrict` and `setTransitHub` always set it), leaves the transit hub,
every other district and the AI district's `id`, `isActive`, `load`,
`health`, `tflops` and `vramUsed` unchanged, and is the identity when the
gpu block is absent. -/
theorem toggleGPUBooost_frame (s : CityState) :
    (toggleGPUBooost s).simulationActive = s.simulationActive ∧
    (∀ id : HubId, (toggleDistrict id s).simulationActive = true) ∧
    (∀ hub : String, (setTransitHub hub s).simulationActive = true) ∧
    (toggleGPUBooost s).transitHub = s.transitHub ∧
    (∀ d : HubId, d ≠ HubId.AI → (toggleGPUBooost s).districts d = s.districts d) ∧
    ((toggleGPUBooost s).districts HubId.AI).id = (s.districts HubId.AI).id ∧
    ((toggleGPUBooost s).districts HubId.AI).isActive = (s.districts HubId.AI).isActive ∧
    ((toggleGPUBooost s).districts HubId.AI).load = (s.districts HubId.AI).load ∧
    ((toggleGPUBooost s).districts HubId.AI).health = (s.districts HubId.AI).health ∧
    ((toggleGPUBooost s).districts HubId.AI).gpuAcceleration.map GpuAcceleration.tflops =
      (s.districts HubId.AI).gpuAcceleration.map GpuAcceleration.tflops ∧
    ((toggleGPUBooost s).districts HubId.AI).gpuAcceleration.map GpuAcceleration.vramUsed =
      (s.districts HubId.AI).gpuAcceleration.map GpuAcceleration.vramUsed ∧
    ((s.districts HubId.AI).gpuAcceleration = none → toggleGPUBooost s = s) := by
  refine ⟨rfl, fun id => rfl, fun hub => rfl, rfl, ?_, ?_, ?_, ?_, ?_, ?_, ?_, ?_⟩
  · intro d hd
    simp [toggleGPUBooost, hd]
  · simp [toggleGPUBooost]
  · simp [toggleGPUBooost]
  · simp [toggleGPUBooost]
  · simp [toggleGPUBooost]
  · simp only [toggleGPUBooost, if_pos rfl]
    cases (s.districts HubId.AI).gpuAcceleration <;> rfl
  · simp only [toggleGPUBooost, if_pos rfl]
    cases (s.districts HubId.AI).gpuAcceleration <;> rfl
  · intro hnone
    ext d
    · by_cases hdi : d = HubId.AI
      · subst hdi
        simp only [toggleGPUBooost, if_pos rfl]
        cases hds : s.districts HubId.AI with
        | mk i a l hl g =>
            rw [hds] at hnone
            simp only at hnone
            subst hnone
            rfl
      · simp [toggleGPUBooost, hdi]
    · rfl
    · rfl

/-- C10 witness: on a concrete state whose AI district carries no gpu block,
`toggleGPUBooost` is the identity, and on the initial state it does not set
the simulation-active flag. -/
theorem toggleGPUBooost_frame_witness :
    (toggleGPUBooost (initialState fun _ => 0)).simulationActive =
      (initialState fun _ => 0).simulationActive ∧
    toggleGPUBooost noGpuState = noGpuState := by
  exact ⟨(toggleGPUBooost_frame (initialState fun _ => 0)).1,
    (toggleGPUBooost_frame noGpuState).2.2.2.2.2.2.2.2.2.2.2 rfl⟩

namespace JsMap

theorem get_set_self {α : Type} (m : JsMap α) (k : String) (v : α) :
    get (set m k v) k = some v := by
  induction m with
  | nil => simp [get, set]
  | cons p rest ih =>
      by_cases hk : p.1 = k
      · simp [set, get, hk]
      · simp [set, get, hk, ih]

theorem get_del_of_ne {α : Type} (m : JsMap α) (k k2 : String) (h : k ≠ k2) :
    get (del m k) k2 = get m k2 := by
  induction m with
  | nil => simp [get, del]
  | cons p rest ih =>
      by_cases hk : p.1 = k
      · simp [del, get, hk, h]
      · by_cases h2 : p.1 = k2
        · simp [del, get, hk, h2, Ne.symm h]
        · simp [del, get, hk, h2, ih]

theorem get_set_ne {α : Type} (m : JsMap α) (k k2 : String) (v : α) (h : k ≠ k2) :
    get (set m k v) k2 = get m k2 := by
  induction m with
  | nil => simp [get, set, h]
  | cons p rest ih =>
      by_cases hk : p.1 = k
      · simp [set, get, hk, h]
      · by_cases h2 : p.1 = k2
        · simp [set, get, hk, h2, Ne.symm h]
        · simp [set, get, hk, h2, ih]

theorem length_set_of_hasKey {α : Type} (m : JsMap α) (k : String) (v : α)
    (h : hasKey m k = true) : (set m k v).length = m.length := by
  induction m with
  | nil => simp [hasKey] at h
  | cons p rest ih =>
      by_cases hk : p.1 = k
      · simp [set, hk]
      · simp only [hasKey, List.any_cons] at h
        rcases Bool.or_eq_true_iff.mp h with h1 | h2
        · exact absurd (of_decide_eq_true h1) hk
        · simp [set, hk, ih h2]

theorem length_set_of_not_hasKey {α : Type} (m : JsMap α) (k : String) (v : α)
    (h : hasKey m k = false) : (set m k v).length = m.length + 1 := by
  induction m with
  | nil => simp [set]
  | cons p rest ih =>
      simp only [hasKey, List.any_cons, Bool.or_eq_false_iff] at h
      have hk : ¬ p.1 = k := by
        intro hc
        simp [hc] at h
      simp [set, hk, ih (by simpa [hasKey] using h.2)]

theorem head?_set_of_not_hasKey {α : Type} (m : JsMap α) (k : String) (v : α)
    (hne : m ≠ []) (h : hasKey m k = false) : (set m k v).head? = m.head? := by
  cases m with
  | nil => exact absurd rfl hne
  | cons p rest =>
      simp only [hasKey, List.any_cons, Bool.or_eq_false_iff] at h
      have hk : ¬ p.1 = k := by
        intro hc
        simp [hc] at h
      simp [set, hk]

end JsMap

namespace InferenceOrchestrator

theorem chat_eq_chatMiss_of_not_fresh (remote : RemoteOutcome) (cache : JsMap CacheEntry)
    (startTime finishTime : Nat) (message : String) (isBoosted : Bool)
    (h : cacheFresh cache (chatKey message isBoosted) startTime = false) :
    chat remote cache startTime finishTime message isBoosted =
      chatMiss remote cache startTime finishTime isBoosted (modelNameOf isBoosted)
        (chatKey message isBoosted) := by
  unfold cacheFresh chatKey at h
  unfold chat chatKey
  cases hget : JsMap.get cache (privateHash message (modelNameOf isBoosted)) with
  | none => simp only [hget]
  | some e =>
      rw [hget] at h
      simp only [decide_eq_false_iff_not] at h
      simp only [hget, if_neg h]

/-- C9: a successful remote (cache-miss) chat returns a cost estimate equal
to `(responseText.length / 4) * COST_COEFFICIENT[model]` exactly, and for a
fixed tier the estimate is monotone non-decreasing in the response length. -/
theorem chat_cost_formula (cache : JsMap CacheEntry) (startTime finishTime : Nat)
    (message : String) (isBoosted : Bool) (txt : Option String)
    (fcs : Option (List FunctionCall))
    (hmiss : cacheFresh cache (chatKey message isBoosted) startTime = false) :
    (∃ res,
        (chat (RemoteOutcome.ok txt fcs) cache startTime finishTime message isBoosted).result =
          Except.ok res ∧
        res.costEstimate =
          estimate (jsStringOr txt timeoutText).length (modelNameOf isBoosted)) ∧
    (∀ n1 n2 : Nat, ∀ model : String, n1 ≤ n2 → estimate n1 model ≤ estimate n2 model) := by
  constructor
  · rw [chat_eq_chatMiss_of_not_fresh _ _ _ _ _ _ hmiss]
    refine ⟨_, rfl, ?_⟩
    rfl
  · intro n1 n2 model h
    unfold estimate
    have hc : (0 : ℚ) ≤ COST_COEFFICIENT model := by
      unfold COST_COEFFICIENT
      split <;> norm_num
    have hn : (n1 : ℚ) / 4 ≤ (n2 : ℚ) / 4 := by
      have : (n1 : ℚ) ≤ (n2 : ℚ) := by exact_mod_cast h
      linarith
    exact mul_le_mul_of_nonneg_right hn hc

/-- C9 witness: concrete miss on the empty cache; the returned estimate
follows the formula and the estimator is monotone between lengths 0 and 2. -/
theorem chat_cost_formula_witness :
    cacheFresh [] (chatKey "hi" false) 0 = false ∧
    (∃ res,
        (chat (RemoteOutcome.ok (some "yo") none) [] 0 7 "hi" false).result =
          Except.ok res ∧
        res.costEstimate =
          estimate (jsStringOr (some "yo") timeoutText).length (modelNameOf false)) ∧
    estimate 0 (modelNameOf false) ≤ estimate 2 (modelNameOf false) :=
  ⟨by decide,
   (chat_cost_formula [] 0 7 "hi" false (some "yo") none (by decide)).1,
   (chat_cost_formula [] 0 7 "hi" false (some "yo") none (by decide)).2 0 2
     (modelNameOf false) (by decide)⟩

/-- C6: the cache key is a deterministic function of the case-folded trimmed
message and the tier's model name: equal normalizations under the same tier
give equal keys, the concrete pair `"hello"` / `"HELLO  "` shares one
non-boosted key, and for any message the boosted and non-boosted keys are
always distinct. -/
theorem privateHash_key_properties :
    (∀ m1 m2 model : String,
        jsTrim (jsToLower m1) = jsTrim (jsToLower m2) →
        privateHash m1 model = privateHash m2 model) ∧
    chatKey "hello" false = chatKey "HELLO  " false ∧
    (∀ m : String, chatKey m false ≠ chatKey m true) := by
  refine ⟨?_, by decide, ?_⟩
  · intro m1 m2 model h
    unfold privateHash
    rw [h]
  · intro m hc
    unfold chatKey privateHash modelNameOf at hc
    have hlen := congrArg String.length hc
    rw [String.length_append, String.length_append, String.length_append,
      String.length_append] at hlen
    simp at hlen
    exact absurd hlen (by decide)

/-- C6 witness: the general congruence applied to the concrete case-variant
pair of messages under the flash tier. -/
theorem privateHash_key_properties_witness :
    jsTrim (jsToLower "hello") = jsTrim (jsToLower "HELLO  ") ∧
    privateHash "hello" "gemini-3-flash-preview" =
      privateHash "HELLO  " "gemini-3-flash-preview" :=
  ⟨by decide,
   privateHash_key_properties.1 "hello" "HELLO  " "gemini-3-flash-preview" (by decide)⟩

/-- C8: when the remote call inside `chat` fails, the thrown error is
`clusterSaturated` exactly when the failure message carries a 429 signal and
`inferenceUnavailable` in every other case, and a successful remote call
never surfaces an error: the two shapes above are the only errors escaping
`chat`. -/
theorem chat_error_taxonomy (cache : JsMap CacheEntry) (startTime finishTime : Nat)
    (message : String) (isBoosted : Bool) (msg : String)
    (hmiss : cacheFresh cache (chatKey message isBoosted) startTime = false) :
    ((chat (RemoteOutcome.err msg) cache startTime finishTime message isBoosted).result =
        Except.error ChatError.clusterSaturated ↔ strIncludes msg "429" = true) ∧
    ((chat (RemoteOutcome.err msg) cache startTime finishTime message isBoosted).result =
        Except.error ChatError.inferenceUnavailable ↔ strIncludes msg "429" = false) ∧
    (∀ (txt : Option String) (fcs : Option (List FunctionCall)), ∃ res,
        (chat (RemoteOutcome.ok txt fcs) cache startTime finishTime message
            isBoosted).result = Except.ok res) := by
  refine ⟨?_, ?_, ?_⟩
  · rw [chat_eq_chatMiss_of_not_fresh _ _ _ _ _ _ hmiss]
    unfold chatMiss
    cases h429 : strIncludes msg "429" <;> simp [h429]
  · rw [chat_eq_chatMiss_of_not_fresh _ _ _ _ _ _ hmiss]
    unfold chatMiss
    cases h429 : strIncludes msg "429" <;> simp [h429]
  · intro txt fcs
    rw [chat_eq_chatMiss_of_not_fresh _ _ _ _ _ _ hmiss]
    exact ⟨_, rfl⟩

/-- C8 witness: on the empty cache, a remote failure whose message carries
"429" surfaces as `clusterSaturated`, and one without surfaces as
`inferenceUnavailable`. -/
theorem chat_error_taxonomy_witness :
    (chat (RemoteOutcome.err "got status: 429 Too Many Requests") [] 0 1 "hi"
        false).result = Except.error ChatError.clusterSaturated ∧
    (chat (RemoteOutcome.err "network down") [] 0 1 "hi" false).result =
      Except.error ChatError.inferenceUnavailable :=
  ⟨(chat_error_taxonomy [] 0 1 "hi" false "got status: 429 Too Many Requests"
      (by decide)).1.mpr (by decide),
   (chat_error_taxonomy [] 0 1 "hi" false "network down" (by decide)).2.1.mpr
     (by decide)⟩

theorem chatMiss_remoteCalls (remote : RemoteOutcome) (cache : JsMap CacheEntry)
    (startTime finishTime : Nat) (isBoosted : Bool) (modelName cacheKey : String) :
    (chatMiss remote cache startTime finishTime isBoosted modelName cacheKey).remoteCalls =
      1 := by
  cases remote <;> rfl

theorem chat_hit_of_fresh (remote : RemoteOutcome) (cache : JsMap CacheEntry)
    (startTime finishTime : Nat) (message : String) (isBoosted : Bool) (e : CacheEntry)
    (he : JsMap.get cache (chatKey message isBoosted) = some e)
    (hf : startTime - e.timestamp < CACHE_TTL) :
    (chat remote cache startTime finishTime message isBoosted).remoteCalls = 0 ∧
    (chat remote cache startTime finishTime message isBoosted).cache = cache ∧
    ∃ res, (chat remote cache startTime finishTime message isBoosted).result =
        Except.ok res ∧ res.metrics.cached = true := by
  unfold chatKey at he
  unfold chat
  simp only [he, if_pos hf]
  exact ⟨trivial, trivial, _, rfl, rfl⟩

theorem chat_cacheEntry_of_ok (remote : RemoteOutcome) (cache : JsMap CacheEntry)
    (startTime finishTime : Nat) (message : String) (isBoosted : Bool)
    (hok : ∃ res, (chat remote cache startTime finishTime message isBoosted).result =
        Except.ok res) :
    ∃ e, JsMap.get (chat remote cache startTime finishTime message isBoosted).cache
        (chatKey message isBoosted) = some e := by
  by_cases hfresh : cacheFresh cache (chatKey message isBoosted) startTime = true
  · unfold cacheFresh at hfresh
    cases hget : JsMap.get cache (chatKey message isBoosted) with
    | none => rw [hget] at hfresh; simp at hfresh
    | some e =>
        rw [hget] at hfresh
        simp only [decide_eq_true_eq] at hfresh
        have := chat_hit_of_fresh remote cache startTime finishTime message isBoosted e
          hget hfresh
        rw [this.2.1]
        exact ⟨e, hget⟩
  · rw [chat_eq_chatMiss_of_not_fresh _ _ _ _ _ _ (Bool.not_eq_true _ ▸ hfresh)] at hok ⊢
    cases remote with
    | err msg =>
        obtain ⟨res, hres⟩ := hok
        simp [chatMiss] at hres
    | ok txt fcs =>
        exact ⟨_, JsMap.get_set_self (evictIfFull MAX_CACHE_SIZE cache)
          (chatKey message isBoosted) _⟩

/-- C1: after a successful `chat(m, t)` call, an entry sits in the cache
under the call's key; any repeat of the same call while the entry's age is
below `CACHE_TTL` issues no remote call and returns `metrics.cached = true`,
and any repeat once the TTL has elapsed issues a remote call again (the
expired entry is not served). -/
theorem chat_ttl_caching (r1 r2 r3 : RemoteOutcome) (c0 : JsMap CacheEntry)
    (s0 f0 : Nat) (m : String) (b : Bool)
    (hok : ∃ res, (chat r1 c0 s0 f0 m b).result = Except.ok res) :
    (∃ e, JsMap.get (chat r1 c0 s0 f0 m b).cache (chatKey m b) = some e) ∧
    ∀ e, JsMap.get (chat r1 c0 s0 f0 m b).cache (chatKey m b) = some e →
      (∀ s1 f1 : Nat, s1 - e.timestamp < CACHE_TTL →
          (chat r2 (chat r1 c0 s0 f0 m b).cache s1 f1 m b).remoteCalls = 0 ∧
          ∃ res, (chat r2 (chat r1 c0 s0 f0 m b).cache s1 f1 m b).result =
              Except.ok res ∧ res.metrics.cached = true) ∧
      (∀ s2 f2 : Nat, CACHE_TTL ≤ s2 - e.timestamp →
          (chat r3 (chat r1 c0 s0 f0 m b).cache s2 f2 m b).remoteCalls = 1) := by
  refine ⟨chat_cacheEntry_of_ok r1 c0 s0 f0 m b hok, ?_⟩
  intro e he
  constructor
  · intro s1 f1 hf
    obtain ⟨h0, _, res, hres, hcached⟩ :=
      chat_hit_of_fresh r2 _ s1 f1 m b e he hf
    exact ⟨h0, res, hres, hcached⟩
  · intro s2 f2 hs
    have hstale : cacheFresh (chat r1 c0 s0 f0 m b).cache (chatKey m b) s2 = false := by
      unfold cacheFresh
      rw [he]
      simp only [decide_eq_false_iff_not]
      omega
    rw [chat_eq_chatMiss_of_not_fresh _ _ _ _ _ _ hstale]
    exact chatMiss_remoteCalls _ _ _ _ _ _ _

/-- C1 witness: a fresh call at time 0/5 on the empty cache, repeated at
time 10 (within the 30-minute TTL) with no remote call, and repeated again
at `5 + CACHE_TTL` (expired) with a remote call. -/
theorem chat_ttl_caching_witness :
    (chat (RemoteOutcome.err "x")
        (chat (RemoteOutcome.ok (some "yo") none) [] 0 5 "hi" false).cache
        10 11 "hi" false).remoteCalls = 0 ∧
    (chat (RemoteOutcome.err "x")
        (chat (RemoteOutcome.ok (some "yo") none) [] 0 5 "hi" false).cache
        (5 + CACHE_TTL) (6 + CACHE_TTL) "hi" false).remoteCalls = 1 := by
  have h := (chat_ttl_caching (RemoteOutcome.ok (some "yo") none)
    (RemoteOutcome.err "x") (RemoteOutcome.err "x") [] 0 5 "hi" false ⟨_, rfl⟩).2 _ rfl
  exact ⟨(h.1 10 11 (by decide)).1, h.2 (5 + CACHE_TTL) (6 + CACHE_TTL) (by decide)⟩

/-- C2: once the cache holds at least the configured maximum number of
entries, a put evicts exactly one entry, the oldest-inserted key, before
inserting the new one; concretely, with capacity 2, inserting A, B, C in
order evicts A and leaves B and C retrievable. -/
theorem cachePut_fifo_eviction (maxSize : Nat) (c : JsMap CacheEntry) (k : String)
    (v : CacheEntry) (hfull : maxSize ≤ c.length) (hne : c ≠ []) :
    (∃ oldest, JsMap.oldestKey c = some oldest ∧
        cachePut maxSize c k v = JsMap.set (JsMap.del c oldest) k v ∧
        (JsMap.del c oldest).length + 1 = c.length) ∧
    JsMap.get (cachePut 2 (cachePut 2 (cachePut 2 [] "A" (mkEntry 1)) "B" (mkEntry 2))
        "C" (mkEntry 3)) "A" = none ∧
    JsMap.get (cachePut 2 (cachePut 2 (cachePut 2 [] "A" (mkEntry 1)) "B" (mkEntry 2))
        "C" (mkEntry 3)) "B" = some (mkEntry 2) ∧
    JsMap.get (cachePut 2 (cachePut 2 (cachePut 2 [] "A" (mkEntry 1)) "B" (mkEntry 2))
        "C" (mkEntry 3)) "C" = some (mkEntry 3) := by
  refine ⟨?_, by decide, by decide, by decide⟩
  cases c with
  | nil => exact absurd rfl hne
  | cons p rest =>
      refine ⟨p.1, rfl, ?_, ?_⟩
      · unfold cachePut evictIfFull
        rw [if_pos hfull]
        simp [JsMap.oldestKey, JsMap.del]
      · simp [JsMap.del]

/-- C2 witness: the eviction shape applied to a concrete full two-entry
cache. -/
theorem cachePut_fifo_eviction_witness :
    (2 : Nat) ≤ (JsMap.set (JsMap.set [] "A" (mkEntry 1)) "B" (mkEntry 2)).length ∧
    ∃ oldest,
      JsMap.oldestKey (JsMap.set (JsMap.set [] "A" (mkEntry 1)) "B" (mkEntry 2)) =
        some oldest ∧
      cachePut 2 (JsMap.set (JsMap.set [] "A" (mkEntry 1)) "B" (mkEntry 2)) "C"
          (mkEntry 3) =
        JsMap.set
          (JsMap.del (JsMap.set (JsMap.set [] "A" (mkEntry 1)) "B" (mkEntry 2)) oldest)
          "C" (mkEntry 3) ∧
      (JsMap.del (JsMap.set (JsMap.set [] "A" (mkEntry 1)) "B" (mkEntry 2))
          oldest).length + 1 =
        (JsMap.set (JsMap.set [] "A" (mkEntry 1)) "B" (mkEntry 2)).length :=
  ⟨by decide,
   (cachePut_fifo_eviction 2 (JsMap.set (JsMap.set [] "A" (mkEntry 1)) "B" (mkEntry 2))
     "C" (mkEntry 3) (by decide) (by decide)).1⟩

end InferenceOrchestrator

/- The localStorage-backed orchestrator variant of `src/unnamed/part_000`
("skip cache when boosted" policy).  The persisted cache object is modelled
by the same insertion-ordered map as the in-memory variant. -/
namespace StorageService

theorem chat_eq_chatMiss_of_no_hit (remote : RemoteOutcome) (cache : JsMap AICacheEntry)
    (startTime finishTime : Nat) (message : String) (isBoosted : Bool)
    (h : cacheHit cache startTime message isBoosted = false) :
    chat remote cache startTime finishTime message isBoosted =
      chatMiss remote cache startTime finishTime message isBoosted := by
  unfold cacheHit at h
  unfold chat
  cases isBoosted with
  | true => rfl
  | false =>
      simp only [Bool.not_false, Bool.true_and] at h
      cases hget : JsMap.get cache message with
      | none => rfl
      | some e =>
          rw [hget] at h
          simp only [decide_eq_false_iff_not] at h
          simp only [if_neg h]

theorem get_setCache_self (cache : JsMap AICacheEntry) (m : String) (e : AICacheEntry)
    (hlen : cache.length ≤ 50) : JsMap.get (setCache cache m e) m = some e := by
  simp only [setCache]
  by_cases hk : JsMap.hasKey cache m = true
  · rw [JsMap.length_set_of_hasKey cache m e hk, if_neg (by omega)]
    exact JsMap.get_set_self cache m e
  · have hk2 : JsMap.hasKey cache m = false := by
      cases h : JsMap.hasKey cache m
      · rfl
      · exact absurd h hk
    have h2 := JsMap.length_set_of_not_hasKey cache m e hk2
    by_cases hfull : 50 < (JsMap.set cache m e).length
    · have hne : cache ≠ [] := by
        intro hnil
        rw [hnil] at hfull
        simp [JsMap.set] at hfull
      obtain ⟨p, tail, htail⟩ := List.exists_cons_of_ne_nil hne
      have hp1 : p.1 ≠ m := by
        intro hpm
        rw [htail] at hk2
        simp [JsMap.hasKey, hpm] at hk2
      have holdest : JsMap.oldestKey (JsMap.set cache m e) = some p.1 := by
        unfold JsMap.oldestKey
        rw [JsMap.head?_set_of_not_hasKey cache m e hne hk2, htail]
        rfl
      rw [if_pos hfull]
      simp only [holdest]
      rw [JsMap.get_del_of_ne _ p.1 m hp1]
      exact JsMap.get_set_self cache m e
    · rw [if_neg hfull]
      exact JsMap.get_set_self cache m e

/-- C3: a cache-miss `chat` call of the skip-on-boost orchestrator that
completes successfully writes its result to the cache unless the response
carried tool calls or the call was boosted; boosted and tool-call-bearing
responses are never stored. -/
theorem chat_cache_write_policy (cache : JsMap AICacheEntry) (startTime finishTime : Nat)
    (message : String) (isBoosted : Bool) (txt : Option String)
    (fcs : Option (List FunctionCall))
    (hmiss : cacheHit cache startTime message isBoosted = false)
    (hlen : cache.length ≤ 50) :
    ((isBoosted = true ∨ fcs.isSome = true) →
        (chat (RemoteOutcome.ok txt fcs) cache startTime finishTime message
            isBoosted).cache = cache) ∧
    (isBoosted = false → fcs = none →
        JsMap.get (chat (RemoteOutcome.ok txt fcs) cache startTime finishTime message
            isBoosted).cache message =
          some { prompt := message
                 response := jsStringOr txt retryText
                 timestamp := finishTime
                 metrics :=
                   { latency := ((finishTime - startTime : Nat) : ℚ), tokens := 0 } }) := by
  rw [chat_eq_chatMiss_of_no_hit _ _ _ _ _ _ hmiss]
  constructor
  · rintro (hb | hf)
    · subst hb
      simp [chatMiss]
    · have hn : fcs.isNone = false := by
        cases fcs with
        | none => simp at hf
        | some l => rfl
      simp [chatMiss, hn]
  · intro hb hfc
    subst hb
    subst hfc
    simp only [chatMiss, Option.isNone_none, Bool.not_false, Bool.and_self, if_pos]
    exact get_setCache_self cache message _ hlen

/-- C3 witness: on the empty cache, a non-boosted tool-call response leaves
the cache empty, and a non-boosted plain response is stored under its
prompt. -/
theorem chat_cache_write_policy_witness :
    cacheHit [] 0 "hi" false = false ∧
    (chat (RemoteOutcome.ok (some "yo")
          (some [{ name := "navigateToSection", sectionId := some "hero",
                   eventType := none, targetId := none }]))
        [] 0 3 "hi" false).cache = [] ∧
    JsMap.get (chat (RemoteOutcome.ok (some "yo") none) [] 0 3 "hi" false).cache "hi" =
      some { prompt := "hi", response := jsStringOr (some "yo") retryText, timestamp := 3,
             metrics := { latency := ((3 - 0 : Nat) : ℚ), tokens := 0 } } :=
  ⟨by decide,
   (chat_cache_write_policy [] 0 3 "hi" false (some "yo")
       (some [{ name := "navigateToSection", sectionId := some "hero",
                eventType := none, targetId := none }]) (by decide) (by decide)).1
     (Or.inr rfl),
   (chat_cache_write_policy [] 0 3 "hi" false (some "yo") none (by decide)
       (by decide)).2 rfl rfl⟩

end StorageService

/-- C7 (amended): the dispatcher applies tool calls in the order received
(each call is fully applied before the rest of the list), each applied call
performs at most one state-store operation or navigation effect (exactly
`callEffects` of them: one for navigation calls and for simulation events
that are RESET or carry a truthy target, none otherwise), and dispatching
`[RESET, FAIL_DISTRICT X]` from any starting state leaves district X
inactive. -/
theorem dispatch_order_and_reset_fail (calls : List FunctionCall) (fc : FunctionCall)
    (ds : DispatchState) (s : CityState) (X : HubId) :
    dispatchCalls (fc :: calls) ds =
      Option.bind (applyCall ds fc) (dispatchCalls calls) ∧
    callEffects fc ≤ 1 ∧
    (∀ ds2, applyCall ds fc = some ds2 →
        effectCount ds2 = effectCount ds + callEffects fc) ∧
    (∃ ds3,
        dispatchCalls [resetCall, failDistrictCall (hubIdKey X)]
            { city := s, navs := [], storeOps := 0 } = some ds3 ∧
        (ds3.city.districts X).isActive = false) := by
  refine ⟨?_, ?_, ?_, ?_⟩
  · cases happly : applyCall ds fc <;> simp [dispatchCalls, happly]
  · unfold callEffects
    split_ifs <;> omega
  · intro ds2 h
    unfold applyCall at h
    unfold callEffects
    split_ifs at h ⊢ with h1 h2 h3 h4 h5
    · cases h
      simp [effectCount]
      try omega
    · cases hp : parseHubId (fc.targetId.getD "") with
      | some id =>
          rw [hp] at h
          cases h
          simp [effectCount]
          try omega
      | none =>
          rw [hp] at h
          cases h
    · cases h
      simp [effectCount]
      try omega
    · cases h
      simp [effectCount]
      try omega
    · cases h
      simp [effectCount]
      try omega
    · cases h
      simp [effectCount]
  · cases X <;> exact ⟨_, rfl, rfl⟩

/-- C7 counterexample to the claim as stated: the schema-valid call
`{name: triggerSimulationEvent, eventType: FAIL_DISTRICT}` with no target is
consumed by the dispatcher without performing any state-store operation or
navigation effect, so not every call performs exactly one. -/
theorem dispatch_fail_without_target_no_effect :
    dispatchCalls
        [{ name := "triggerSimulationEvent", sectionId := none,
           eventType := some "FAIL_DISTRICT", targetId := none }]
        { city := initialState fun _ => 0, navs := [], storeOps := 0 } =
      some { city := initialState fun _ => 0, navs := [], storeOps := 0 } ∧
    effectCount { city := initialState fun _ => 0, navs := [], storeOps := 0 } = 0 ∧
    callEffects
        { name := "triggerSimulationEvent", sectionId := none,
          eventType := some "FAIL_DISTRICT", targetId := none } = 0 :=
  ⟨rfl, rfl, rfl⟩

/-- C7 witness: the ordered-application law and the reset-then-fail scenario
instantiated on concrete calls and a concrete starting state. -/
theorem dispatch_order_and_reset_fail_witness :
    callEffects (failDistrictCall "DATA") ≤ 1 ∧
    (∃ ds3,
        dispatchCalls [resetCall, failDistrictCall (hubIdKey HubId.DATA)]
            { city := initialState fun _ => 0, navs := [], storeOps := 0 } = some ds3 ∧
        (ds3.city.districts HubId.DATA).isActive = false) ∧
    effectCount
        { city := initialState fun _ => 0, navs := [],
          storeOps := 0 } + callEffects resetCall =
      effectCount
        { city := resetSimulation (initialState fun _ => 0), navs := [], storeOps := 1 } := by
  refine ⟨(dispatch_order_and_reset_fail [] (failDistrictCall "DATA")
    { city := initialState fun _ => 0, navs := [], storeOps := 0 }
    (initialState fun _ => 0) HubId.DATA).2.1, ?_, ?_⟩
  · exact (dispatch_order_and_reset_fail [] (failDistrictCall "DATA")
      { city := initialState fun _ => 0, navs := [], storeOps := 0 }
      (initialState fun _ => 0) HubId.DATA).2.2.2
  · exact ((dispatch_order_and_reset_fail [] resetCall
      { city := initialState fun _ => 0, navs := [], storeOps := 0 }
      (initialState fun _ => 0) HubId.DATA).2.2.1 _ rfl).symm


/-- C5 counterexample to the claim as stated: under the
`src/context/CityContext.tsx` provider's tick, a tick taken while the AI
district is inactive still redraws its drift fields — here `tflops` moves
from 120 to 125 on a failed AI district — so that variant's tick does not
leave an inactive compute district unchanged (only the `part_001` variant
excludes it). -/
theorem tickFlux_inactive_drift :
    ((toggleDistrict HubId.AI (initialState fun _ => 0)).districts HubId.AI).isActive =
      false ∧
    ((toggleDistrict HubId.AI (initialState fun _ => 0)).districts
        HubId.AI).gpuAcceleration.map GpuAcceleration.tflops = some 120 ∧
    ((tickFlux (1/2) (1/2) (toggleDistrict HubId.AI (initialState fun _ => 0))).districts
        HubId.AI).gpuAcceleration.map GpuAcceleration.tflops = some 125 := by
  refine ⟨rfl, by decide, ?_⟩
  simp [tickFlux, toggleDistrict, initialState]
  norm_num

/-- C3 counterexample to the claim as stated: the Map-cache orchestrator of
`src/services/aiService.ts` populates the cache on every successful miss —
here a boosted call whose response carries a tool call still ends up stored
under its tier key. -/
theorem chat_boosted_toolcall_cached :
    (JsMap.get
        (InferenceOrchestrator.chat
            (RemoteOutcome.ok (some "yo")
              (some [{ name := "navigateToSection", sectionId := some "hero",
                       eventType := none, targetId := none }]))
            [] 0 1 "hi" true).cache
        (InferenceOrchestrator.chatKey "hi" true)).isSome = true := by
  decide
